import Mathlib

set_option maxHeartbeats 1000000
set_option maxRecDepth 4000

/-!
Shallow embedding of the SBOM dependency-package microservice (`main.py`):
Python string normalization helpers, the component identity-resolution engine
(`get_component`, `new_component_version`, `new_docker_component`,
`new_file_component`, `new_component_item`, `update_name`), CVSS severity
normalization from `update_vulns` and `calculate_cvss_score`, the vulnerability
store, the origin resolver (`getCommitFromPurl` and the per-ecosystem registry
lookups with `get_commit_sha`), and the bulk upload `save_components_data`.

External effects (HTTP to the catalog and the package registries, the git
probe, the SQL store) are modeled as explicit oracle records or as explicit
state, so the control flow of the Python source is mirrored branch by branch.
Machine integers are `Int`/`Nat` (Python integers are unbounded, so no modular
reduction is needed).  Fallible paths (Python exceptions escaping a function)
are modeled with `Option`/`Except`.
-/

/-! ## Python string primitives

`str.replace` with a non-empty pattern replaces all non-overlapping
occurrences scanning left to right; we mirror it on `List Char` with a fuel
argument equal to the input length so the function is structurally recursive
(each step consumes at least one character when the pattern is non-empty). -/

/-- Whether `pat` is a prefix of the second list (character-by-character). -/
def startsWithCL : List Char → List Char → Bool
  | [], _ => true
  | _ :: _, [] => false
  | p :: ps, c :: cs => p == c && startsWithCL ps cs

/-- Whether `pat` occurs as a contiguous substring, as the Python `in` operator. -/
def containsCL (pat : List Char) : List Char → Bool
  | [] => pat.isEmpty
  | c :: rest => startsWithCL pat (c :: rest) || containsCL pat rest

/-- Fueled worker for `pyReplace`; mirrors Python `str.replace` for a non-empty
pattern when the fuel is at least the length of the input. -/
def pyReplaceGo (pat rep : List Char) : Nat → List Char → List Char
  | _, [] => []
  | 0, s => s
  | n + 1, c :: rest =>
    if startsWithCL pat (c :: rest) then
      rep ++ pyReplaceGo pat rep n (rest.drop (pat.length - 1))
    else
      c :: pyReplaceGo pat rep n rest

/-- Python `s.replace(pat, rep)` on character lists (non-empty `pat`). -/
def pyReplace (pat rep s : List Char) : List Char :=
  pyReplaceGo pat rep s.length s

/-- Python `s.replace(pat, rep)` on strings. -/
def pyReplaceS (pat rep s : String) : String :=
  String.mk (pyReplace pat.data rep.data s.data)

/-- Python `pat in s` on strings. -/
def containsS (pat s : String) : Bool := containsCL pat.data s.data

/-- Python `s.startswith(pat)` on strings. -/
def startsWithS (pat s : String) : Bool := startsWithCL pat.data s.data

/-- Python `s.rstrip(";")`: drop all trailing semicolons. -/
def rstripSemi (s : String) : String :=
  String.mk ((s.data.reverse.dropWhile (fun c => c == ';')).reverse)

/-- Python `s.capitalize()`: first character upper-cased, the rest lower-cased. -/
def pyCapitalize (s : String) : String :=
  match s.data with
  | [] => s
  | c :: rest => String.mk (c.toUpper :: rest.map Char.toLower)

/-- Python `s.lower()` (ASCII) on strings, character by character. -/
def pyToLower (s : String) : String :=
  String.mk (s.data.map Char.toLower)

/-- Python `s.strip()`: drop leading and trailing whitespace. -/
def pyStrip (s : String) : String :=
  String.mk (((s.data.dropWhile Char.isWhitespace).reverse.dropWhile
    Char.isWhitespace).reverse)

/-- Python `is_empty` from `main.py` on an optional string: `None` or
whitespace-only counts as empty (`not (s and s.strip())`). -/
def pyIsEmptyOpt : Option String → Bool
  | none => true
  | some s => pyStrip s == ""

/-! ## Name normalization (`clean_name`, lines 492-515) -/

/-- `clean_name` from `main.py`: the ten sequential `str.replace` calls, in
source order. `None` inputs are handled by `cleanNameOpt` below. -/
def clean_name (name : String) : String :=
  let n1 := pyReplaceS "." "_" name
  let n2 := pyReplaceS "-" "_" n1
  let n3 := pyReplaceS "/" "." n2
  let n4 := pyReplaceS "+" "_" n3
  let n5 := pyReplaceS ":" "_" n4
  let n6 := pyReplaceS "~" "_" n5
  let n7 := pyReplaceS "(" "" n6
  let n8 := pyReplaceS ")" "" n7
  let n9 := pyReplaceS "#" "_" n8
  pyReplaceS "@" "" n9

/-- `clean_name` including the `if name is None: return name` guard. -/
def cleanNameOpt : Option String → Option String
  | none => none
  | some s => some (clean_name s)

/-- The per-character action of the composed `clean_name` replacement chain
(used to reason about `clean_name`; note `/` becomes `.` because the
`.`-to-`_` replacement has already run). -/
def cleanChar (c : Char) : List Char :=
  if c == '.' then ['_']
  else if c == '-' then ['_']
  else if c == '/' then ['.']
  else if c == '+' then ['_']
  else if c == ':' then ['_']
  else if c == '~' then ['_']
  else if c == '(' then []
  else if c == ')' then []
  else if c == '#' then ['_']
  else if c == '@' then []
  else [c]

/-! ## Variant / version promotion

Every entry point of the identity-resolution engine (`get_component`,
`new_component_version`, `new_docker_component`, `new_file_component`,
`update_name`) contains the identical step: if the (cleaned) variant is empty
and the version is non-empty, the version is promoted into the variant and the
version is cleared. -/

/-- The promotion step shared by all engine entry points:
`if (compvariant == "" or compvariant is None) and compversion is not None and
compversion != "": compvariant = compversion; compversion = None`. -/
def promoteVV (compvariant compversion : Option String) : Option String × Option String :=
  if (compvariant = some "" ∨ compvariant = none) ∧
      compversion ≠ none ∧ compversion ≠ some "" then
    (compversion, none)
  else
    (compvariant, compversion)

/-- Python `compvariant is not None and compvariant != ""` (no stripping). -/
def optNE : Option String → Bool
  | none => false
  | some s => s != ""

/-- Qualified name `name[;variant[;version]]` as built in `get_component`,
`update_name` and `new_component_version`. -/
def qualName (compname : String) (cv cw : Option String) : String :=
  if optNE cv && optNE cw then
    compname ++ ";" ++ cv.getD "" ++ ";" ++ cw.getD ""
  else if optNE cv then
    compname ++ ";" ++ cv.getD ""
  else
    compname

/-- Suffix of `s` after its last dot (Python `s.split(".")[-1]`). -/
def lastDotSeg (s : String) : String :=
  String.mk ((s.data.reverse.takeWhile (fun c => c != '.')).reverse)

/-- The short component name: `""` unless the name has a dot, in which case the
segment after the last dot (`short_compname` in the source). -/
def shortNameOf (s : String) : String :=
  if containsS "." s then lastDotSeg s else ""

/-- `check_compname` as built in `get_component` / `new_component_version`:
the qualified name over the short (domain-stripped) component name. -/
def checkName (compname : String) (cv cw : Option String) : String :=
  qualName (shortNameOf compname) cv cw

/-! ## Catalog model (remote component-catalog HTTP API)

The catalog is an oracle: `getComp` models the parsed JSON answer of
`GET /dmadminweb/API/component/?name=...` (`none` covers both a transport
failure and `successερ = false`, which the source treats identically);
`newBase`/`newFromParent` model `new/compver` creation calls (`none` = the
response was `None`, in which case the id defaults to `0`); `newItem` models
the `new/compitem` call by loop index.  The `ApiCall` log records which
mutating catalog calls a function issued. -/

structure CatResp where
  id : Int
  name : String
  versions : Option (List (Int × String))
deriving DecidableEq, Repr

structure Catalog where
  getComp : String → Bool → Bool → Option CatResp
  newBase : String → Option Int
  newFromParent : Int → Option Int
  newItem : Nat → Option Int

/-- The catalog calls issued by the engine, as recorded for reasoning:
`createBase` and `createFromParent` are the `new/compver` creation calls,
`rename` is `UpdateSummaryData`, `itemUpdate` is the `UpdateAttrs f=inv`
remove-all item reset, `createItem` is `new/compitem` (the flag records
whether `removeall=Y` was sent), `linkItems` is `UpdateAttrs f=iad`. -/
inductive ApiCall where
  | createBase (name : String)
  | createFromParent (parent : Int)
  | rename (compid : Int) (newname : String)
  | itemUpdate (compid : Int)
  | createItem (compid : Int) (name : String) (removeall : Bool)
  | linkItems (compid fromItem toItem : Int)
deriving DecidableEq, Repr

/-- Calls that only touch the component-item structure (no component creation,
no rename). -/
def isItemCall : ApiCall → Bool
  | .itemUpdate _ => true
  | .createItem _ _ _ => true
  | .linkItems _ _ _ => true
  | _ => false

/-- `get_component` (lines 191-263): clean and promote variant/version, build
the qualified name, query the catalog; on a hit whose current name differs
from the expected check-name, scan the `versions` collection for an exact
match on the check-name; `(-1, "")` is the universal not-found result. -/
def get_component (cat : Catalog) (compname : String)
    (compvariant compversion : Option String) (id_only latest : Bool) :
    Int × String :=
  let p := promoteVV (cleanNameOpt compvariant) (cleanNameOpt compversion)
  let component := qualName compname p.1 p.2
  let check_compname := checkName compname p.1 p.2
  match cat.getComp component id_only latest with
  | none => (-1, "")
  | some r =>
    if r.name ≠ check_compname then
      match r.versions with
      | none => (r.id, r.name)
      | some vers =>
        match vers.find? (fun v => v.2 == check_compname) with
        | some v => (v.1, v.2)
        | none => (r.id, r.name)
    else
      (r.id, r.name)

/-- One component item is a list of key/value attribute entries; the entry
whose key lower-cases to `"name"` names the item. -/
structure KV where
  key : String
  value : String
deriving DecidableEq, Repr

/-- The item name extracted by the `new_component_item` loop (the last entry
whose key lower-cases to `"name"` wins; defaults to `""`). -/
def itemName (item : List KV) : String :=
  item.foldl (fun acc e => if pyToLower e.key == "name" then e.value else acc) ""

/-- The file-kind loop of `new_component_item` (lines 459-488): one
`new/compitem` call per item (`removeall=Y` on the first), linking each created
item under the previously created one. -/
def nciLoop (cat : Catalog) (compid : Int) :
    List (List KV) → Nat → Int → List ApiCall
  | [], _, _ => []
  | item :: rest, i, parent_item =>
    let call := ApiCall.createItem compid (itemName item) (i == 0)
    match cat.newItem i with
    | none => call :: nciLoop cat compid rest (i + 1) parent_item
    | some workid =>
      if parent_item > 0 then
        call :: ApiCall.linkItems compid parent_item workid ::
          nciLoop cat compid rest (i + 1) workid
      else
        call :: nciLoop cat compid rest (i + 1) workid

/-- `new_component_item` (lines 441-489): docker kind (or a `None` item list)
issues a single remove-all `UpdateAttrs` call; file kind walks the item list.
The function returns the list of catalog calls it issued (its Python return
value is ignored by every caller). -/
def new_component_item (cat : Catalog) (compid : Int) (kind : String)
    (component_items : Option (List (List KV))) : List ApiCall :=
  if pyToLower kind == "docker" || component_items.isNone then
    [ApiCall.itemUpdate compid]
  else
    nciLoop cat compid (component_items.getD []) 0 (-1)

/-- `update_name` (lines 518-549): clean/promote, strip the domain off the
name, and issue one rename (`UpdateSummaryData`) call. -/
def update_name (_cat : Catalog) (compname : String)
    (compvariant compversion : Option String) (compid : Int) : List ApiCall :=
  let p := promoteVV (cleanNameOpt compvariant) (cleanNameOpt compversion)
  let nm := if containsS "." compname then lastDotSeg compname else compname
  [ApiCall.rename compid (qualName nm p.1 p.2)]

/-- `new_docker_component` (lines 349-391): base creation when
`parent_compid < 0`, otherwise version-from-parent plus rename; always followed
by a docker `new_component_item` call. Returns the new id (`0` when the
creation response was `None`) and the calls issued. -/
def new_docker_component (cat : Catalog) (compname : String)
    (compvariant compversion : Option String) (parent_compid : Int) :
    Int × List ApiCall :=
  let p := promoteVV (cleanNameOpt compvariant) (cleanNameOpt compversion)
  if parent_compid < 0 then
    let target := if pyIsEmptyOpt p.1 then compname else compname ++ ";" ++ p.1.getD ""
    let compid := (cat.newBase target).getD 0
    (compid, ApiCall.createBase target :: new_component_item cat compid "docker" none)
  else
    let compid := (cat.newFromParent parent_compid).getD 0
    (compid, ApiCall.createFromParent parent_compid ::
      (update_name cat compname p.1 p.2 compid ++
        new_component_item cat compid "docker" none))

/-- `new_file_component` (lines 394-438): same shape as the docker variant but
the trailing `new_component_item` call passes the file kind and the item list. -/
def new_file_component (cat : Catalog) (compname : String)
    (compvariant compversion : Option String) (parent_compid : Int)
    (component_items : Option (List (List KV))) : Int × List ApiCall :=
  let p := promoteVV (cleanNameOpt compvariant) (cleanNameOpt compversion)
  if parent_compid < 0 then
    let target := if pyIsEmptyOpt p.1 then compname else compname ++ ";" ++ p.1.getD ""
    let compid := (cat.newBase target).getD 0
    (compid, ApiCall.createBase target ::
      new_component_item cat compid "file" component_items)
  else
    let compid := (cat.newFromParent parent_compid).getD 0
    (compid, ApiCall.createFromParent parent_compid ::
      (update_name cat compname p.1 p.2 compid ++
        new_component_item cat compid "file" component_items))

/-- Body of `new_component_version` after normalization (lines 294-346): the
three-stage lookup fallback at decreasing specificity, then either base
creation (no hit), reuse, or versioned-child creation, then the item call when
the resulting id is positive. -/
def ncvCore (cat : Catalog) (compname compvariant : String)
    (compversion : Option String) (kind : String)
    (component_items : Option (List (List KV))) (compautoinc : Option Bool) :
    Int × List ApiCall :=
  let d1 := get_component cat compname (some compvariant) compversion false true
  let data :=
    if d1.1 = -1 then
      let d2 := get_component cat compname (some compvariant) none false true
      if d2.1 = -1 then get_component cat compname (some "") none false true else d2
    else d1
  let latest_compid := data.1
  let found_compname := data.2
  let check_compname := checkName compname (some compvariant) compversion
  let compversion2 : Option String := some (compversion.getD "")
  if latest_compid < 0 then
    if pyToLower kind == "docker" then
      new_docker_component cat compname (some compvariant) compversion2 (-1)
    else
      new_file_component cat compname (some compvariant) compversion2 (-1) none
  else
    match compautoinc with
    | some _ => (latest_compid, [])
    | none =>
      let step1 :=
        if found_compname = "" ∨ found_compname ≠ check_compname then
          if pyToLower kind == "docker" then
            new_docker_component cat compname (some compvariant) compversion2 latest_compid
          else
            new_file_component cat compname (some compvariant) compversion2
              latest_compid component_items
        else
          (latest_compid, ([] : List ApiCall))
      if step1.1 > 0 then
        (step1.1, step1.2 ++
          (if pyToLower kind == "docker" then
            new_component_item cat step1.1 "docker" none
          else
            new_component_item cat step1.1 "file" component_items))
      else
        (step1.1, step1.2)

/-- `new_component_version` (lines 266-346).  The result is `none` exactly when
the Python code would raise (`compvariant.rstrip(";")` on `None`, i.e. both the
cleaned variant and the cleaned version are absent or empty); otherwise
`some (id, calls)`. -/
def new_component_version (cat : Catalog) (compname : String)
    (compvariant compversion : Option String) (kind : String)
    (component_items : Option (List (List KV))) (compautoinc : Option Bool) :
    Option (Int × List ApiCall) :=
  let p := promoteVV (cleanNameOpt compvariant) (cleanNameOpt compversion)
  match p.1 with
  | none => none
  | some cv =>
    some (ncvCore cat (rstripSemi compname) (rstripSemi cv)
      (p.2.map rstripSemi) kind component_items compautoinc)

/-! ## CVSS severity normalization (`calculate_cvss_score`, `update_vulns`)

The CVSS scorers are the external `cvss` library; they are oracle parameters.
A base score is represented in tenths (`Nat`, `0` to `100`): every CVSS base
score is a non-negative number with one decimal digit, so `37` stands for
`3.7`.  A scorer returning `none` models the library raising (caught by the
`except` in `calculate_cvss_score`, which returns `None`). -/

structure Scorers where
  v2 : String → Option Nat
  v3 : String → Option Nat
  v4 : String → Option Nat

/-- `calculate_cvss_score` (lines 943-958): dispatch on the vector prefix. -/
def calculate_cvss_score (sc : Scorers) (cvss_vector : String) : Option Nat :=
  if startsWithS "CVSS:3" cvss_vector then sc.v3 cvss_vector
  else if startsWithS "CVSS:4" cvss_vector then sc.v4 cvss_vector
  else sc.v2 cvss_vector

/-- One entry of the OSV `severity` list (`score` may be missing). -/
structure SevEntry where
  score : Option String
deriving DecidableEq, Repr

/-- The OSV `database_specific` object (`severity` may be missing). -/
structure DbSpec where
  severity : Option String
deriving DecidableEq, Repr

/-- One OSV finding as consumed by `update_vulns`: `none` fields model missing
JSON keys. -/
structure VulnObj where
  id : String
  summary : String
  aliases : Option (List String)
  severity : Option (List SevEntry)
  database_specific : Option DbSpec
deriving DecidableEq, Repr

/-- The bucketing conditionals of `update_vulns` (lines 1063-1072), in tenths:
`base == 0.0`, `0.1 <= base <= 3.9`, `4.0 <= base <= 6.9`, `7.0 <= base <= 8.9`,
`base >= 9.0`; otherwise `risklevel` keeps its initial `""`. -/
def bucketCode (base : Nat) : String :=
  if base = 0 then "None"
  else if 1 ≤ base ∧ base ≤ 39 then "Low"
  else if 40 ≤ base ∧ base ≤ 69 then "Medium"
  else if 70 ≤ base ∧ base ≤ 89 then "High"
  else if 90 ≤ base then "Critical"
  else ""

/-- The `Moderate`-to-`Medium` rewrite after capitalization (lines 1080-1081). -/
def fixModerate (s : String) : String :=
  if s = "Moderate" then "Medium" else s

/-- The `database_specific.severity` fallback value (lines 1074-1077);
`""` when either key is missing. -/
def dbFallback (obj : VulnObj) : String :=
  ((obj.database_specific).bind DbSpec.severity).getD ""

/-- The severity/cvss computation of the `update_vulns` loop body (lines
1053-1081), returning `(risklevel, cvss)` as stored.  `none` models the
uncaught `IndexError` of `sevlist[0]` on an empty `severity` list. -/
def riskAndCvss (sc : Scorers) (obj : VulnObj) : Option (String × Option String) :=
  match obj.severity with
  | none => some (fixModerate (pyCapitalize ""), some "")
  | some [] => none
  | some (sev :: _) =>
    let cvss := sev.score
    let risk1 :=
      match cvss with
      | none => ""
      | some v =>
        match calculate_cvss_score sc v with
        | none => ""
        | some base => bucketCode base
    let risk2 := if risk1 = "" then dbFallback obj else risk1
    some (fixModerate (pyCapitalize risk2), cvss)

/-- The risk level alone (first component of `riskAndCvss`). -/
def computeRiskLevel (sc : Scorers) (obj : VulnObj) : Option String :=
  (riskAndCvss sc obj).map (fun rc => rc.1)

/-- Severity determination as worded by the specification claim (refinement
target, written from the claim text, amended): dispatch on the vector prefix,
bucket `0 -> None`, `(0,4) -> Low`, `[4,7) -> Medium`, `[7,9) -> High`,
`>= 9 -> Critical` (tenths). -/
def specBucket (t : Nat) : String :=
  if t = 0 then "None"
  else if t < 40 then "Low"
  else if t < 70 then "Medium"
  else if t < 90 then "High"
  else "Critical"

/-- Scorer dispatch as worded by the specification claim. -/
def specDispatch (sc : Scorers) (v : String) : Option Nat :=
  if startsWithS "CVSS:3" v then sc.v3 v
  else if startsWithS "CVSS:4" v then sc.v4 v
  else sc.v2 v

/-- Qualitative fallback as worded by the specification claim: the database
severity field, capitalized, `Moderate` treated as `Medium`. -/
def specFallback (obj : VulnObj) : String :=
  let q := pyCapitalize (dbFallback obj)
  if q = "Moderate" then "Medium" else q

/-- Severity determination as worded by the specification claim, amended for
the as-implemented fallback scope: the qualitative fallback is consulted only
when a `severity` list is present; with no `severity` list the result is the
empty severity; a present-but-empty list fails (models the `IndexError`). -/
def specSeverity (sc : Scorers) (obj : VulnObj) : Option String :=
  match obj.severity with
  | none => some ""
  | some [] => none
  | some (sev :: _) =>
    match sev.score with
    | none => some (specFallback obj)
    | some v =>
      match specDispatch sc v with
      | none => some (specFallback obj)
      | some t => some (specBucket t)

/-! ## Vulnerability store (`update_vulns` insert loop)

The store is the list of `dm.dm_vulns` rows.  The conflict target
`dm_vulns_pkey` is a database constraint whose definition is not part of this
repository. -/

/-- One row of `dm.dm_vulns` as inserted by `update_vulns`. -/
structure VulnRow where
  packagename : String
  packageversion : String
  purl : String
  id : String
  summary : String
  risklevel : String
  cvss : Option String
deriving DecidableEq, Repr

/-- Modelled from the spec: the `dm_vulns_pkey` constraint is database schema
that is not in the repository; the spec (§3) names the natural key
`(packagename, packageversion, id)`, which is what we use as conflict target. -/
def vkey (r : VulnRow) : String × String × String :=
  (r.packagename, r.packageversion, r.id)

/-- Whether some stored row already has natural key `k`. -/
def keyMem (db : List VulnRow) (k : String × String × String) : Bool :=
  db.any (fun x => vkey x == k)

/-- `INSERT ... ON CONFLICT ... DO NOTHING`: append unless the natural key is
already present; an existing row is never modified. -/
def insertVulnRow (db : List VulnRow) (r : VulnRow) : List VulnRow :=
  if keyMem db (vkey r) then db else db ++ [r]

/-- Number of stored rows with natural key `k`. -/
def countKey (db : List VulnRow) (k : String × String × String) : Nat :=
  (db.filter (fun x => vkey x == k)).length

/-- The summary built by the `update_vulns` loop (lines 1044-1051): alias ids,
space-joined, prefixed to the summary when present. -/
def descOf (obj : VulnObj) : String :=
  match obj.aliases with
  | none => obj.summary
  | some al =>
    let a := String.intercalate " " al
    if obj.summary ≠ "" then a ++ ": " ++ obj.summary else a

/-- The `dm.dm_vulns` row built from one OSV finding (lines 1042-1088);
`none` when the severity computation raises. -/
def vulnRowOf (sc : Scorers) (pn pv purl : String) (obj : VulnObj) :
    Option VulnRow :=
  (riskAndCvss sc obj).map
    (fun rc => ⟨pn, pv, purl, obj.id, descOf obj, rc.1, rc.2⟩)

/-- The insert loop of `update_vulns` over the findings returned for one
package (lines 1042-1092): build each row and insert it with
conflict-ignore semantics; `none` propagates the uncaught exception. -/
def storeVulns (sc : Scorers) (pn pv purl : String) (db : List VulnRow) :
    List VulnObj → Option (List VulnRow)
  | [] => some db
  | o :: rest =>
    match vulnRowOf sc pn pv purl o with
    | none => none
    | some r => storeVulns sc pn pv purl (insertVulnRow db r) rest

/-! ## Origin resolver (`getCommitFromPurl` and friends)

Registry HTTP traffic is an oracle: `Fetch.netErr` models `requests.get`
raising (connection error / timeout), `Fetch.resp status body` a completed
response.  For the JSON registries the body is `Option json` where `none`
models `response.json()` raising on an unparseable body.  For nested
`data.get(k, {}).get(k2, "")` lookups the inner field is
`Option (Option String)`: the outer `none` is a missing key (Python default
applies), `some none` is an explicit JSON `null` (Python yields `None`).
`Except.error ()` models an exception escaping the function. -/

inductive Fetch (α : Type) where
  | netErr : Fetch α
  | resp (status : Nat) (body : α) : Fetch α

structure PypiInfo where
  home_page : Option (Option String)

structure PypiJson where
  info : Option PypiInfo

structure NpmRepo where
  url : Option (Option String)

structure NpmJson where
  repository : Option NpmRepo

structure GoOrigin where
  url : Option String
  hash : Option String

structure GoJson where
  origin : Option GoOrigin

structure MavenPom where
  scm_url : Option String

structure CrateInfo where
  repository : Option (Option String)

structure CargoJson where
  crate : Option CrateInfo

/-- The parsed `.dsc` control file: the `Vcs-Git:` regex match result. -/
structure DebDsc where
  vcs_git : Option String

/-- The git probe of `get_commit_sha`: `cloneOk url` is whether the shallow
clone of the (rewritten) url succeeded within the timeout and produced a
`.git` directory; `revList url rev` is `git rev-list -n 1 rev` (`none` models
the `CalledProcessError`, caught by the source). -/
structure GitOracle where
  cloneOk : String → Bool
  revList : String → String → Option String

structure Oracle where
  pypi : Fetch (Option PypiJson)
  npm : Fetch (Option NpmJson)
  golang : Fetch (Option GoJson)
  maven : Fetch (Option MavenPom)
  cargo : Fetch (Option CargoJson)
  deb : Fetch DebDsc
  git : GitOracle

/-- The five url rewrites at the top of `get_commit_sha` (lines 755-759), in
source order.  Note the third rewrite replaces the prefix `git+https://` with
`https://github.com` (no trailing slash). -/
def rewriteCloneUrl (u : String) : String :=
  let u1 := pyReplaceS "http://github.com" "https://github.com" u
  let u2 := pyReplaceS "git://github.com" "https://github.com" u1
  let u3 := pyReplaceS "git+https://" "https://github.com" u2
  let u4 := pyReplaceS "git+ssh://git@" "https://" u3
  pyReplaceS "git+" "" u4

/-- `get_commit_sha` (lines 745-791): `None` url returns `None`; otherwise
rewrite the url, shallow-clone it, resolve the version to a commit, retrying
with a `v`-prefixed version when the first `rev-list` finds nothing. -/
def get_commit_sha (g : GitOracle) (repo_url : Option String)
    (package_version : String) : Option String :=
  match repo_url with
  | none => none
  | some u0 =>
    let u := rewriteCloneUrl u0
    if g.cloneOk u then
      match g.revList u package_version with
      | some sha => some sha
      | none => g.revList u ("v" ++ package_version)
    else
      none

/-- The `data.get("info", {}).get("home_page", "")` extraction of
`get_pypi_info`. -/
def pypiRepoUrl (j : PypiJson) : Option String :=
  match j.info with
  | none => some ""
  | some i =>
    match i.home_page with
    | none => some ""
    | some v => v

/-- `get_pypi_info` (lines 837-843): no try/except and no status check, so a
network failure or an unparseable body raises out of the function. -/
def get_pypi_info (ora : Oracle) (_package_name version : String) :
    Except Unit (Option String × Option String) :=
  match ora.pypi with
  | .netErr => .error ()
  | .resp _ body =>
    match body with
    | none => .error ()
    | some j =>
      let repo_url := pypiRepoUrl j
      .ok (repo_url, get_commit_sha ora.git repo_url version)

/-- The `data.get("repository", {}).get("url", "")` extraction of
`get_npm_info`. -/
def npmRepoUrl (j : NpmJson) : Option String :=
  match j.repository with
  | none => some ""
  | some rep =>
    match rep.url with
    | none => some ""
    | some v => v

/-- `get_npm_info` (lines 846-857): non-200 responses return `("", None)`
without a git probe; a network failure or unparseable 200 body raises. -/
def get_npm_info (ora : Oracle) (_package_name version : String) :
    Except Unit (Option String × Option String) :=
  match ora.npm with
  | .netErr => .error ()
  | .resp st body =>
    if st = 200 then
      match body with
      | none => .error ()
      | some j =>
        let repo_url := npmRepoUrl j
        .ok (repo_url, get_commit_sha ora.git repo_url version)
    else
      .ok (some "", none)

/-- `get_golang_info` (lines 860-874): the commit comes straight from
`Origin.Hash`; no git probe is performed. -/
def get_golang_info (ora : Oracle) (_domain : Option String)
    (_module_name _version : String) :
    Except Unit (Option String × Option String) :=
  match ora.golang with
  | .netErr => .error ()
  | .resp st body =>
    if st = 200 then
      match body with
      | none => .error ()
      | some j =>
        match j.origin with
        | none => .ok (some "", none)
        | some o => .ok (o.url, o.hash)
    else
      .ok (some "", none)

/-- `get_java_info` (lines 877-899): non-200 returns `("", None)`; an
unparseable POM raises; a missing `<scm><url>` returns `(None, None)`. -/
def get_java_info (ora : Oracle) (_group : Option String)
    (_artifact version : String) :
    Except Unit (Option String × Option String) :=
  match ora.maven with
  | .netErr => .error ()
  | .resp st body =>
    if st ≠ 200 then
      .ok (some "", none)
    else
      match body with
      | none => .error ()
      | some pom =>
        match pom.scm_url with
        | none => .ok (none, none)
        | some u => .ok (some u, get_commit_sha ora.git (some u) version)

/-- The `data.get("crate", {}).get("repository", "")` extraction of
`get_rust_info`. -/
def crateRepoUrl (j : CargoJson) : Option String :=
  match j.crate with
  | none => some ""
  | some c =>
    match c.repository with
    | none => some ""
    | some v => v

/-- `get_rust_info` (lines 902-908): like pypi, no status check and no
try/except. -/
def get_rust_info (ora : Oracle) (_crate_name version : String) :
    Except Unit (Option String × Option String) :=
  match ora.cargo with
  | .netErr => .error ()
  | .resp _ body =>
    match body with
    | none => .error ()
    | some j =>
      let repo_url := crateRepoUrl j
      .ok (repo_url, get_commit_sha ora.git repo_url version)

/-- Whether a character matches the regex class `\w`. -/
def isWordChar (c : Char) : Bool := c.isAlphanum || c == '_'

/-- Fueled worker mirroring `re.sub(r"pkg-(\w+)", lambda m: f"{m.group(1)}-team", s)`:
replace every non-overlapping occurrence of `pkg-` followed by a maximal
non-empty word run by the run followed by `-team`. -/
def pkgSubGo : Nat → List Char → List Char
  | 0, s => s
  | _ + 1, [] => []
  | n + 1, c :: rest =>
    if startsWithCL "pkg-".data (c :: rest) &&
        (match rest.drop 3 with
         | [] => false
         | d :: _ => isWordChar d) then
      let tail := rest.drop 3
      (tail.takeWhile isWordChar) ++ "-team".data ++
        pkgSubGo n (tail.dropWhile isWordChar)
    else
      c :: pkgSubGo n rest

/-- `re.sub(r"pkg-(\w+)", ...)` on strings (line 827-830). -/
def pkgSub (s : String) : String :=
  String.mk (pkgSubGo s.data.length s.data)

/-- The debian host rewrites of `get_deb_info` (lines 811-830): five
contains-guarded replaces, each also stripping `.git`, then the `pkg-` to
`-team` regex substitution. -/
def debVcsRewrite (u : String) : String :=
  let u1 := if containsS "git://git.debian.org/git" u then
      pyReplaceS ".git" "" (pyReplaceS "git://git.debian.org/git" "https://salsa.debian.org" u)
    else u
  let u2 := if containsS "git://git.debian.org/users" u1 then
      pyReplaceS ".git" "" (pyReplaceS "git://git.debian.org/users" "https://salsa.debian.org" u1)
    else u1
  let u3 := if containsS "git://anonscm.debian.org/users" u2 then
      pyReplaceS ".git" "" (pyReplaceS "git://anonscm.debian.org/users" "https://salsa.debian.org" u2)
    else u2
  let u4 := if containsS "git://git.debian.org" u3 then
      pyReplaceS ".git" "" (pyReplaceS "git://git.debian.org" "https://salsa.debian.org" u3)
    else u3
  let u5 := if containsS "git://anonscm.debian.org" u4 then
      pyReplaceS ".git" "" (pyReplaceS "git://anonscm.debian.org" "https://salsa.debian.org" u4)
    else u4
  pkgSub u5

/-- `get_deb_info` (lines 794-834): the `.dsc` fetch has no try/except so a
network failure raises; a non-200 status or a missing `Vcs-Git:` field yields
`("", None)`; otherwise the rewritten url is probed for a commit. -/
def get_deb_info (ora : Oracle) (version : String) :
    Except Unit (Option String × Option String) :=
  match ora.deb with
  | .netErr => .error ()
  | .resp st body =>
    let repo_url : Option String := if st = 200 then body.vcs_git else none
    match repo_url with
    | none => .ok (some "", none)
    | some u =>
      let u2 := debVcsRewrite u
      .ok (some u2, get_commit_sha ora.git (some u2) version)

/-- The record returned by `getCommitFromPurl`. -/
structure OriginRecord where
  repo_url : Option String
  commit_sha : Option String
deriving Repr

/-- `getCommitFromPurl` (lines 911-933): dispatch on the package type; an
unrecognized or absent type returns the empty record without querying any
registry.  The second component records which registry branch was taken. -/
def getCommitFromPurl (ora : Oracle) (package_type : Option String)
    (package_namespace : Option String) (package_name package_version _purl : String) :
    Except Unit OriginRecord × List String :=
  match package_type with
  | none => (.ok ⟨none, none⟩, [])
  | some t =>
    if t.length = 0 then (.ok ⟨none, none⟩, [])
    else if t = "pypi" then
      ((get_pypi_info ora package_name package_version).map (fun p => ⟨p.1, p.2⟩), ["pypi"])
    else if t = "npm" then
      ((get_npm_info ora package_name package_version).map (fun p => ⟨p.1, p.2⟩), ["npm"])
    else if t = "golang" then
      ((get_golang_info ora package_namespace package_name package_version).map
        (fun p => ⟨p.1, p.2⟩), ["golang"])
    else if t = "maven" then
      ((get_java_info ora package_namespace package_name package_version).map
        (fun p => ⟨p.1, p.2⟩), ["maven"])
    else if t = "cargo" then
      ((get_rust_info ora package_name package_version).map (fun p => ⟨p.1, p.2⟩), ["cargo"])
    else if t = "deb" then
      ((get_deb_info ora package_version).map (fun p => ⟨p.1, p.2⟩), ["deb"])
    else
      (.ok ⟨none, none⟩, [])

/-! ## Component-dependency bulk upload (`save_components_data`)

The relational store is the list of `dm.dm_componentdeps` rows.  The conflict
constraint `dm_componentdeps_pkey` is database schema outside the repository,
so the conflict key is an arbitrary parameter `pk`.  The Python function runs
delete-then-bulk-insert on one connection with a single `conn.commit()`; the
model is the corresponding atomic state transition (the success path of the
retry loop). -/

structure DepRow where
  compid : Int
  packagename : String
  packageversion : String
  deptype : String
  name : String
  url : String
  summary : String
  purl : String
  pkgtype : String
deriving DecidableEq, Repr

/-- `DELETE from dm.dm_componentdeps where compid=%s and deptype=%s`. -/
def deleteDeps (db : List DepRow) (compid : Int) (deptype : String) : List DepRow :=
  db.filter (fun r => decide (¬(r.compid = compid ∧ r.deptype = deptype)))

/-- The `executemany` bulk insert with `ON CONFLICT ... DO NOTHING`: insert
rows in order, skipping a row whose conflict key is already present; returns
the new state and the number of rows actually inserted (`cursor.rowcount`). -/
def insertManyPK {K : Type} [DecidableEq K] (pk : DepRow → K) :
    List DepRow → List DepRow → List DepRow × Nat
  | db, [] => (db, 0)
  | db, r :: rest =>
    if db.any (fun x => pk x == pk r) then
      insertManyPK pk db rest
    else
      ((insertManyPK pk (db ++ [r]) rest).1, (insertManyPK pk (db ++ [r]) rest).2 + 1)

/-- `save_components_data` (lines 1323-1374), success path: an empty batch
returns immediately without touching the store; otherwise duplicates are
removed (`list(set(...))`, modeled keeping first occurrences), the old rows of
this `compid`/`deptype` are deleted, the batch is inserted, and the resulting
detail message depends on the inserted-row count. -/
def save_components_data {K : Type} [DecidableEq K] (pk : DepRow → K)
    (db : List DepRow) (compid : Int) (bomformat : String)
    (components_data : List DepRow) : List DepRow × String :=
  if components_data.length = 0 then
    (db, "components not updated")
  else
    let cd := components_data.dedup
    let db1 := deleteDeps db compid bomformat
    let res := insertManyPK pk db1 cd
    (res.1, if res.2 > 0 then "components updated succesfully" else "components not updated")

/-! ## Concrete fixtures for witnesses and counterexamples -/

/-- A catalog whose lookup knows exactly the component
`GLOBAL.widget;1_0` with id 5 (and whose creation endpoints are down). -/
def cat0 : Catalog where
  getComp := fun comp _ _ =>
    if comp == "GLOBAL.widget;1_0" then some ⟨5, "widget;1_0", none⟩ else none
  newBase := fun _ => none
  newFromParent := fun _ => none
  newItem := fun _ => none

/-- Scorers that always fail (the concrete value is irrelevant to the
statements that use it). -/
def sc0 : Scorers where
  v2 := fun _ => none
  v3 := fun _ => none
  v4 := fun _ => none

/-- A finding with no `severity` list but with a `database_specific.severity`
field. -/
def objNoSev : VulnObj where
  id := "GHSA-0001"
  summary := "demo"
  aliases := none
  severity := none
  database_specific := some ⟨some "high"⟩

/-- A minimal finding used by the vulnerability-store witness. -/
def objSimple : VulnObj where
  id := "CVE-2020-0001"
  summary := "s"
  aliases := none
  severity := none
  database_specific := none

/-- The row `objSimple` produces for package `pkg` version `1.0`. -/
def rowSimple : VulnRow :=
  ⟨"pkg", "1.0", "pkg:npm/pkg@1.0", "CVE-2020-0001", "s", "", some ""⟩

/-- An oracle where every registry is unreachable. -/
def oraDown : Oracle where
  pypi := .netErr
  npm := .netErr
  golang := .netErr
  maven := .netErr
  cargo := .netErr
  deb := .netErr
  git := ⟨fun _ => false, fun _ _ => none⟩

/-- A git oracle hosting exactly `https://github.com/org/left-pad` with the
release tags `1.3.0` and `v1.3.0`. -/
def leftPadGit : GitOracle where
  cloneOk := fun u => u == "https://github.com/org/left-pad"
  revList := fun u v =>
    if u == "https://github.com/org/left-pad" && (v == "1.3.0" || v == "v1.3.0") then
      some "a1b2c3d4"
    else
      none

/-- A git oracle where only the `v`-prefixed tag exists (exercises the retry). -/
def leftPadGitV : GitOracle where
  cloneOk := fun u => u == "https://github.com/org/left-pad"
  revList := fun u v =>
    if u == "https://github.com/org/left-pad" && v == "v1.3.0" then
      some "a1b2c3d4"
    else
      none

/-- Conflict key used by the upload witnesses. -/
def pk0 : DepRow → String := fun r => r.packagename

/-- A pre-existing license row for component 1. -/
def rowOld : DepRow :=
  ⟨1, "liba", "1.0", "license", "MIT", "", "", "pkg:npm/liba@1.0", "npm"⟩

/-- A freshly uploaded license row for component 1. -/
def rowNew : DepRow :=
  ⟨1, "libb", "2.0", "license", "Apache-2.0", "", "", "pkg:npm/libb@2.0", "npm"⟩

/-! ## Theorems -/

theorem pyReplaceGo_single (a : Char) (rep : List Char) :
    ∀ (n : Nat) (s : List Char), s.length ≤ n →
      pyReplaceGo [a] rep n s = s.flatMap (fun c => if c == a then rep else [c]) := by
  intro n
  induction n with
  | zero =>
    intro s hs
    have hnil : s = [] := List.length_eq_zero.mp (Nat.le_zero.mp hs)
    subst hnil
    rfl
  | succ m ih =>
    intro s hs
    cases s with
    | nil => rfl
    | cons c rest =>
      have hrest : rest.length ≤ m := Nat.le_of_succ_le_succ hs
      by_cases h : a = c
      · subst h
        simp [pyReplaceGo, startsWithCL, ih rest hrest]
      · have h2 : c ≠ a := Ne.symm h
        simp [pyReplaceGo, startsWithCL, h, h2, ih rest hrest]

theorem pyReplace_single (a : Char) (rep l : List Char) :
    pyReplace [a] rep l = l.flatMap (fun c => if c == a then rep else [c]) :=
  pyReplaceGo_single a rep l.length l (Nat.le_refl _)

theorem pyReplaceS_single (a : Char) (pat rep x : String) (hp : pat.data = [a]) :
    (pyReplaceS pat rep x).data
      = x.data.flatMap (fun c => if c == a then rep.data else [c]) := by
  show pyReplace pat.data rep.data x.data = _
  rw [hp]
  exact pyReplace_single a rep.data x.data

theorem clean_name_data (s : String) :
    (clean_name s).data = s.data.flatMap cleanChar := by
  simp only [clean_name]
  rw [pyReplaceS_single '@' _ _ _ rfl, pyReplaceS_single '#' _ _ _ rfl,
    pyReplaceS_single ')' _ _ _ rfl, pyReplaceS_single '(' _ _ _ rfl,
    pyReplaceS_single '~' _ _ _ rfl, pyReplaceS_single ':' _ _ _ rfl,
    pyReplaceS_single '+' _ _ _ rfl, pyReplaceS_single '/' _ _ _ rfl,
    pyReplaceS_single '-' _ _ _ rfl, pyReplaceS_single '.' _ _ _ rfl]
  simp only [List.flatMap_assoc]
  apply List.flatMap_congr
  intro c _
  rcases eq_or_ne c '.' with h | h1
  · subst h; decide
  rcases eq_or_ne c '-' with h | h2
  · subst h; decide
  rcases eq_or_ne c '/' with h | h3
  · subst h; decide
  rcases eq_or_ne c '+' with h | h4
  · subst h; decide
  rcases eq_or_ne c ':' with h | h5
  · subst h; decide
  rcases eq_or_ne c '~' with h | h6
  · subst h; decide
  rcases eq_or_ne c '(' with h | h7
  · subst h; decide
  rcases eq_or_ne c ')' with h | h8
  · subst h; decide
  rcases eq_or_ne c '#' with h | h9
  · subst h; decide
  rcases eq_or_ne c '@' with h | h10
  · subst h; decide
  simp [cleanChar, h1, h2, h3, h4, h5, h6, h7, h8, h9, h10]

theorem cleanChar_idem (c : Char) (hc : c ≠ '/') :
    (cleanChar c).flatMap cleanChar = cleanChar c := by
  rcases eq_or_ne c '.' with h | h1
  · subst h; decide
  rcases eq_or_ne c '-' with h | h2
  · subst h; decide
  rcases eq_or_ne c '+' with h | h4
  · subst h; decide
  rcases eq_or_ne c ':' with h | h5
  · subst h; decide
  rcases eq_or_ne c '~' with h | h6
  · subst h; decide
  rcases eq_or_ne c '(' with h | h7
  · subst h; decide
  rcases eq_or_ne c ')' with h | h8
  · subst h; decide
  rcases eq_or_ne c '#' with h | h9
  · subst h; decide
  rcases eq_or_ne c '@' with h | h10
  · subst h; decide
  simp [cleanChar, h1, h2, hc, h4, h5, h6, h7, h8, h9, h10]

theorem flatMap_clean_idem :
    ∀ (l : List Char), (∀ c ∈ l, c ≠ '/') →
      (l.flatMap cleanChar).flatMap cleanChar = l.flatMap cleanChar := by
  intro l
  induction l with
  | nil => intro _; rfl
  | cons c rest ih =>
    intro hl
    have hc : c ≠ '/' := hl c (by simp)
    have hrest : ∀ x ∈ rest, x ≠ '/' := fun x hx => hl x (by simp [hx])
    simp only [List.flatMap_cons, List.flatMap_append]
    rw [cleanChar_idem c hc, ih hrest]

/-- C4 counterexample: `clean_name` is not idempotent, because the slash is
rewritten to a period only after the period rewrite has already run, so a
second application turns that period into an underscore. -/
theorem C4_counterexample :
    clean_name "/" = "." ∧ clean_name (clean_name "/") = "_" ∧
      clean_name (clean_name "/") ≠ clean_name "/" := by decide

/-- C4 (amended): `clean_name` is a pure function, and it is idempotent on
every input that contains no slash; on a slash the two applications differ
(see the counterexample). -/
theorem C4_amended (s : String) (h : '/' ∉ s.data) :
    clean_name (clean_name s) = clean_name s := by
  apply String.ext
  rw [clean_name_data, clean_name_data s]
  exact flatMap_clean_idem s.data (fun c hc hne => h (hne ▸ hc))

/-- C4 witness: a concrete slash-free input on which the amended idempotence
theorem applies. -/
theorem C4_witness :
    '/' ∉ "left-pad:1.3.0+x(y)#z@w".data ∧
      clean_name (clean_name "left-pad:1.3.0+x(y)#z@w")
        = clean_name "left-pad:1.3.0+x(y)#z@w" :=
  ⟨by decide, C4_amended "left-pad:1.3.0+x(y)#z@w" (by decide)⟩

/-- C5: at the shared normalization step of the identity-resolution entry
points, an empty variant with a non-empty version promotes the version into
the variant and clears the version, and re-applying the promotion to the
already-promoted pair leaves it unchanged. -/
theorem C5_promotion (va ve : Option String)
    (h1 : va = some "" ∨ va = none) (h2 : ve ≠ none) (h3 : ve ≠ some "") :
    promoteVV va ve = (ve, none) ∧
      promoteVV (promoteVV va ve).1 (promoteVV va ve).2 = promoteVV va ve := by
  have hp : promoteVV va ve = (ve, none) := by
    unfold promoteVV
    rw [if_pos ⟨h1, h2, h3⟩]
  refine ⟨hp, ?_⟩
  rw [hp]
  unfold promoteVV
  rw [if_neg]
  rintro ⟨_, hn, _⟩
  exact hn rfl

/-- C5 witness: promotion of a concrete (empty variant, version) pair. -/
theorem C5_witness :
    promoteVV (some "") (some "2_0_0") = (some "2_0_0", none) ∧
      promoteVV (promoteVV (some "") (some "2_0_0")).1
          (promoteVV (some "") (some "2_0_0")).2
        = promoteVV (some "") (some "2_0_0") :=
  C5_promotion (some "") (some "2_0_0") (Or.inl rfl) (by decide) (by decide)

/-- C9: `clean_name` on an absent value returns the absent value unchanged
(the `if name is None: return name` guard), and the shared promotion step
passes a pair of absent values through unchanged, so the normalization entry
points accept absent variants and versions. -/
theorem C9_none_passthrough :
    cleanNameOpt none = none ∧ promoteVV none none = (none, none) := by
  refine ⟨rfl, ?_⟩
  unfold promoteVV
  rw [if_neg]
  rintro ⟨_, hn, _⟩
  exact hn rfl

/-- C10: an empty upload batch returns the "components not updated" detail
message before any database statement runs, so the store is unchanged. -/
theorem C10_empty_batch {K : Type} [DecidableEq K] (pk : DepRow → K)
    (db : List DepRow) (compid : Int) (bomformat : String) :
    save_components_data pk db compid bomformat []
      = (db, "components not updated") := rfl

theorem insertManyPK_mem {K : Type} [DecidableEq K] (pk : DepRow → K) :
    ∀ (l db : List DepRow) (r : DepRow),
      r ∈ (insertManyPK pk db l).1 → r ∈ db ∨ r ∈ l := by
  intro l
  induction l with
  | nil => intro db r h; exact Or.inl h
  | cons x rest ih =>
    intro db r h
    simp only [insertManyPK] at h
    by_cases hc : db.any (fun y => pk y == pk x)
    · rw [if_pos hc] at h
      rcases ih db r h with h1 | h1
      · exact Or.inl h1
      · exact Or.inr (List.mem_cons_of_mem _ h1)
    · rw [if_neg hc] at h
      rcases ih (db ++ [x]) r h with h1 | h1
      · rcases List.mem_append.mp h1 with h2 | h2
        · exact Or.inl h2
        · rcases List.mem_singleton.mp h2 with rfl
          exact Or.inr (List.mem_cons_self _ _)
      · exact Or.inr (List.mem_cons_of_mem _ h1)

theorem insertManyPK_mono {K : Type} [DecidableEq K] (pk : DepRow → K) :
    ∀ (l db : List DepRow) (r : DepRow),
      r ∈ db → r ∈ (insertManyPK pk db l).1 := by
  intro l
  induction l with
  | nil => intro db r h; exact h
  | cons x rest ih =>
    intro db r h
    simp only [insertManyPK]
    by_cases hc : db.any (fun y => pk y == pk x)
    · rw [if_pos hc]
      exact ih db r h
    · rw [if_neg hc]
      exact ih (db ++ [x]) r (List.mem_append_left _ h)

/-- C6: a non-empty upload batch fully supersedes the stored rows of the same
component id and deptype: afterwards every stored row matching
(compid, deptype) comes from the batch, rows of other components or deptypes
are preserved, and previously stored matching rows that are not in the batch
are gone.  The delete and the bulk insert are one atomic state transition
(the source runs both on one connection with a single commit). -/
theorem C6_replace {K : Type} [DecidableEq K] (pk : DepRow → K)
    (db : List DepRow) (compid : Int) (bomformat : String)
    (batch : List DepRow) (hne : batch ≠ []) :
    (∀ r ∈ (save_components_data pk db compid bomformat batch).1,
        r.compid = compid → r.deptype = bomformat → r ∈ batch) ∧
    (∀ r ∈ db, ¬(r.compid = compid ∧ r.deptype = bomformat) →
        r ∈ (save_components_data pk db compid bomformat batch).1) ∧
    (∀ r ∈ db, r.compid = compid → r.deptype = bomformat → r ∉ batch →
        r ∉ (save_components_data pk db compid bomformat batch).1) := by
  have hlen : ¬ batch.length = 0 := fun h => hne (List.length_eq_zero.mp h)
  have hsave : (save_components_data pk db compid bomformat batch).1
      = (insertManyPK pk (deleteDeps db compid bomformat) batch.dedup).1 := by
    simp only [save_components_data, if_neg hlen]
  refine ⟨?_, ?_, ?_⟩
  · intro r hr hcid hdept
    rw [hsave] at hr
    rcases insertManyPK_mem pk _ _ r hr with h1 | h1
    · exfalso
      have h2 := (List.mem_filter.mp h1).2
      simp [hcid, hdept] at h2
    · exact List.mem_dedup.mp h1
  · intro r hr hnk
    rw [hsave]
    apply insertManyPK_mono
    exact List.mem_filter.mpr ⟨hr, decide_eq_true hnk⟩
  · intro r hr hcid hdept hnb hmem
    rw [hsave] at hmem
    rcases insertManyPK_mem pk _ _ r hmem with h1 | h1
    · have h2 := (List.mem_filter.mp h1).2
      simp [hcid, hdept] at h2
    · exact hnb (List.mem_dedup.mp h1)

/-- C6 witness: a concrete store holding one old license row for component 1,
uploaded over with a one-row batch. -/
theorem C6_witness :
    (∀ r ∈ (save_components_data pk0 [rowOld] 1 "license" [rowNew]).1,
        r.compid = 1 → r.deptype = "license" → r ∈ [rowNew]) ∧
    (∀ r ∈ [rowOld], ¬(r.compid = 1 ∧ r.deptype = "license") →
        r ∈ (save_components_data pk0 [rowOld] 1 "license" [rowNew]).1) ∧
    (∀ r ∈ [rowOld], r.compid = 1 → r.deptype = "license" → r ∉ [rowNew] →
        r ∉ (save_components_data pk0 [rowOld] 1 "license" [rowNew]).1) :=
  C6_replace pk0 [rowOld] 1 "license" [rowNew] (by decide)

/-- C7: the vulnerability store is first-write-wins on the natural key.  With
the key already present, processing a batch of two identical findings leaves
the store untouched (the existing row is never overwritten); with the key
absent, exactly one row is persisted and the duplicate is dropped. -/
theorem C7_firstWriteWins (sc : Scorers) (db : List VulnRow)
    (pn pv purl : String) (o : VulnObj) (r : VulnRow)
    (hr : vulnRowOf sc pn pv purl o = some r) :
    (keyMem db (vkey r) = true →
        storeVulns sc pn pv purl db [o, o] = some db) ∧
    (keyMem db (vkey r) = false →
        storeVulns sc pn pv purl db [o, o] = some (db ++ [r]) ∧
        countKey (db ++ [r]) (vkey r) = 1 ∧ countKey db (vkey r) = 0) := by
  constructor
  · intro hk
    have h1 : insertVulnRow db r = db := by
      unfold insertVulnRow
      rw [if_pos hk]
    simp only [storeVulns, hr, h1]
  · intro hk
    have h1 : insertVulnRow db r = db ++ [r] := by
      unfold insertVulnRow
      rw [if_neg]
      simp [hk]
    have h2 : keyMem (db ++ [r]) (vkey r) = true := by
      unfold keyMem
      simp
    have h3 : insertVulnRow (db ++ [r]) r = db ++ [r] := by
      unfold insertVulnRow
      rw [if_pos h2]
    have hc0 : countKey db (vkey r) = 0 := by
      unfold countKey
      have hfil : db.filter (fun x => vkey x == vkey r) = [] := by
        rw [List.filter_eq_nil_iff]
        intro x hx hpx
        have hkt : keyMem db (vkey r) = true := by
          unfold keyMem
          exact List.any_eq_true.mpr ⟨x, hx, hpx⟩
        rw [hk] at hkt
        exact Bool.false_ne_true hkt
      rw [hfil]
      rfl
    refine ⟨?_, ?_, hc0⟩
    · simp only [storeVulns, hr, h1, h3]
    · have hstep : countKey (db ++ [r]) (vkey r) = countKey db (vkey r) + 1 := by
        unfold countKey
        rw [List.filter_append]
        simp
      rw [hstep, hc0]

/-- C7 witness: an empty store, a concrete finding processed twice. -/
theorem C7_witness :
    (keyMem [] (vkey rowSimple) = true →
        storeVulns sc0 "pkg" "1.0" "pkg:npm/pkg@1.0" [] [objSimple, objSimple]
          = some []) ∧
    (keyMem [] (vkey rowSimple) = false →
        storeVulns sc0 "pkg" "1.0" "pkg:npm/pkg@1.0" [] [objSimple, objSimple]
            = some ([] ++ [rowSimple]) ∧
        countKey ([] ++ [rowSimple]) (vkey rowSimple) = 1 ∧
        countKey [] (vkey rowSimple) = 0) :=
  C7_firstWriteWins sc0 [] "pkg" "1.0" "pkg:npm/pkg@1.0" objSimple rowSimple
    (by decide)

theorem bucketCode_ne_empty (b : Nat) : bucketCode b ≠ "" := by
  unfold bucketCode
  split_ifs <;> first | decide | (exfalso; omega)

theorem bucket_norm (b : Nat) :
    fixModerate (pyCapitalize (bucketCode b)) = specBucket b := by
  unfold bucketCode specBucket
  split_ifs <;> first | decide | (exfalso; omega)

/-- C2 counterexample: a finding with no `severity` list but with a
`database_specific.severity` of `"high"` gets the empty risk level, not
`"High"`: the qualitative fallback is only reachable when a `severity` list is
present, so "whenever no vector is present the database severity is used" is
false as stated. -/
theorem C2_counterexample :
    computeRiskLevel sc0 objNoSev = some "" ∧
      computeRiskLevel sc0 objNoSev ≠ some "High" := by decide

/-- C2 (amended): severity determination agrees with the claim's dispatch and
bucketing (base scores in tenths: `0 -> None`, `(0,4) -> Low`, `[4,7) ->
Medium`, `[7,9) -> High`, `>= 9 -> Critical`), and with the capitalized
`Moderate`-to-`Medium` qualitative fallback, amended so that the fallback is
consulted only when the finding carries a `severity` list (a finding without
one gets the empty severity, and an empty list fails processing). -/
theorem C2_amended (sc : Scorers) (obj : VulnObj) :
    computeRiskLevel sc obj = specSeverity sc obj := by
  unfold computeRiskLevel riskAndCvss specSeverity
  cases hs : obj.severity with
  | none => rfl
  | some l =>
    cases l with
    | nil => rfl
    | cons sev rest =>
      show some (fixModerate (pyCapitalize
          (if (match sev.score with
                | none => ""
                | some v =>
                  match calculate_cvss_score sc v with
                  | none => ""
                  | some base => bucketCode base) = "" then dbFallback obj
           else
             match sev.score with
             | none => ""
             | some v =>
               match calculate_cvss_score sc v with
               | none => ""
               | some base => bucketCode base)))
        = match sev.score with
          | none => some (specFallback obj)
          | some v =>
            match calculate_cvss_score sc v with
            | none => some (specFallback obj)
            | some t => some (specBucket t)
      cases hsc : sev.score with
      | none =>
        show some (fixModerate (pyCapitalize
            (if ("" : String) = "" then dbFallback obj else "")))
          = some (specFallback obj)
        rw [if_pos rfl]
        rfl
      | some v =>
        show some (fixModerate (pyCapitalize
            (if (match calculate_cvss_score sc v with
                  | none => ""
                  | some base => bucketCode base) = "" then dbFallback obj
             else
               match calculate_cvss_score sc v with
               | none => ""
               | some base => bucketCode base)))
          = match calculate_cvss_score sc v with
            | none => some (specFallback obj)
            | some t => some (specBucket t)
        cases hb : calculate_cvss_score sc v with
        | none =>
          show some (fixModerate (pyCapitalize
              (if ("" : String) = "" then dbFallback obj else "")))
            = some (specFallback obj)
          rw [if_pos rfl]
          rfl
        | some b =>
          show some (fixModerate (pyCapitalize
              (if bucketCode b = "" then dbFallback obj else bucketCode b)))
            = some (specBucket b)
          rw [if_neg (bucketCode_ne_empty b)]
          exact congrArg some (bucket_norm b)

theorem nciLoop_item (cat : Catalog) (compid : Int) :
    ∀ (l : List (List KV)) (idx : Nat) (p : Int) (a : ApiCall),
      a ∈ nciLoop cat compid l idx p → isItemCall a = true := by
  intro l
  induction l with
  | nil => intro idx p a h; cases h
  | cons item rest ih =>
    intro idx p a h
    simp only [nciLoop] at h
    cases hni : cat.newItem idx with
    | none =>
      rw [hni] at h
      have h2 : a ∈ ApiCall.createItem compid (itemName item) (idx == 0) ::
          nciLoop cat compid rest (idx + 1) p := h
      rcases List.mem_cons.mp h2 with rfl | h3
      · rfl
      · exact ih _ _ _ h3
    | some workid =>
      rw [hni] at h
      have h2 : a ∈ (if p > 0 then
          ApiCall.createItem compid (itemName item) (idx == 0) ::
            ApiCall.linkItems compid p workid ::
              nciLoop cat compid rest (idx + 1) workid
        else
          ApiCall.createItem compid (itemName item) (idx == 0) ::
            nciLoop cat compid rest (idx + 1) workid) := h
      by_cases hp : p > 0
      · rw [if_pos hp] at h2
        rcases List.mem_cons.mp h2 with rfl | h3
        · rfl
        rcases List.mem_cons.mp h3 with rfl | h4
        · rfl
        · exact ih _ _ _ h4
      · rw [if_neg hp] at h2
        rcases List.mem_cons.mp h2 with rfl | h3
        · rfl
        · exact ih _ _ _ h3

theorem new_component_item_calls (cat : Catalog) (compid : Int) (kind : String)
    (items : Option (List (List KV))) :
    ∀ a ∈ new_component_item cat compid kind items, isItemCall a = true := by
  intro a h
  unfold new_component_item at h
  by_cases hk : (pyToLower kind == "docker" || items.isNone) = true
  · rw [if_pos hk] at h
    rcases List.mem_singleton.mp h with rfl
    rfl
  · rw [if_neg hk] at h
    exact nciLoop_item cat compid _ _ _ a h

theorem ncvCore_reuse (cat : Catalog) (compname compvariant : String)
    (compversion : Option String) (kind : String)
    (items : Option (List (List KV))) (i : Int) (hi : 0 < i)
    (hlk : get_component cat compname (some compvariant) compversion false true
        = (i, checkName compname (some compvariant) compversion))
    (hck : checkName compname (some compvariant) compversion ≠ "") :
    ncvCore cat compname compvariant compversion kind items none
      = (i, if pyToLower kind == "docker" then new_component_item cat i "docker" none
            else new_component_item cat i "file" items) := by
  have hne : ¬ (i = -1) := by omega
  have hnlt : ¬ (i < 0) := by omega
  have hcond : ¬ (checkName compname (some compvariant) compversion = "" ∨
      checkName compname (some compvariant) compversion
        ≠ checkName compname (some compvariant) compversion) := by
    rintro (h | h)
    · exact hck h
    · exact h rfl
  unfold ncvCore
  rw [hlk]
  simp only [if_neg hne, if_neg hnlt, if_neg hcond, if_pos hi, List.nil_append]


/-- C1 counterexample: with the exact version `GLOBAL.widget;1_0` already in
the catalog (id 5), a `new_component_version` call for the same
(name, variant, version) returns the found id and issues no creation call,
but it does issue the remove-all item update (`UpdateAttrs f=inv`) on the
found record, so the found record is not "reused without mutation" as the
claim states. -/
theorem C1_counterexample :
    new_component_version cat0 "GLOBAL.widget" (some "1_0") none "docker" none none
      = some (5, [ApiCall.itemUpdate 5]) ∧
      ([ApiCall.itemUpdate 5] : List ApiCall) ≠ [] := by decide

/-- C1 (amended): when the lookup finds a record whose name equals the
expected check-name (and no auto-increment is requested), the call returns
that record's id — so a repeated identical call returns the same id — and the
call log contains no component-creation and no rename call; it consists only
of component-item calls (the item structure is re-applied to the found
record). -/
theorem C1_amended (cat : Catalog) (compname : String)
    (compvariant compversion : Option String) (kind : String)
    (items : Option (List (List KV))) (cv : String) (cw : Option String)
    (hp : promoteVV (cleanNameOpt compvariant) (cleanNameOpt compversion) = (some cv, cw))
    (i : Int) (hi : 0 < i)
    (hlk : get_component cat (rstripSemi compname) (some (rstripSemi cv))
        (cw.map rstripSemi) false true
      = (i, checkName (rstripSemi compname) (some (rstripSemi cv)) (cw.map rstripSemi)))
    (hck : checkName (rstripSemi compname) (some (rstripSemi cv))
        (cw.map rstripSemi) ≠ "") :
    ∃ L, new_component_version cat compname compvariant compversion kind items none
        = some (i, L) ∧ ∀ a ∈ L, isItemCall a = true := by
  refine ⟨if pyToLower kind == "docker" then new_component_item cat i "docker" none
          else new_component_item cat i "file" items, ?_, ?_⟩
  · unfold new_component_version
    rw [hp]
    show some (ncvCore cat (rstripSemi compname) (rstripSemi cv)
        (cw.map rstripSemi) kind items none)
      = some (i, if pyToLower kind == "docker" then new_component_item cat i "docker" none
              else new_component_item cat i "file" items)
    exact congrArg some
      (ncvCore_reuse cat (rstripSemi compname) (rstripSemi cv) (cw.map rstripSemi)
        kind items i hi hlk hck)
  · intro a ha
    by_cases hk : (pyToLower kind == "docker") = true
    · rw [if_pos hk] at ha
      exact new_component_item_calls cat i "docker" none a ha
    · rw [if_neg hk] at ha
      exact new_component_item_calls cat i "file" items a ha

/-- C1 witness: the counterexample catalog instantiates the amended theorem
(found id 5, check-name `widget;1_0`). -/
theorem C1_witness :
    ∃ L, new_component_version cat0 "GLOBAL.widget" (some "1_0") none "docker" none none
        = some (5, L) ∧ ∀ a ∈ L, isItemCall a = true :=
  C1_amended cat0 "GLOBAL.widget" (some "1_0") none "docker" none "1_0" none
    (by decide) 5 (by decide) (by decide) (by decide)

/-- C3 counterexample: `resolve_origin` can raise.  `get_pypi_info` has no
try/except and no status check, so a network failure on the pypi registry
propagates out of `getCommitFromPurl` as an exception instead of yielding
"no URL found". -/
theorem C3_counterexample :
    (getCommitFromPurl oraDown (some "pypi") none "requests" "2.0.0"
        "pkg:pypi/requests@2.0.0").1 = Except.error () := rfl

/-- C3 (amended): for an absent or unrecognized package type,
`getCommitFromPurl` returns the empty record (null repo and commit) and
queries no registry; but the function does not never-raise — a registry
network failure or parse failure propagates (see the counterexample). -/
theorem C3_amended (ora : Oracle) (ns : Option String) (name ver purl : String)
    (t : String) (ht0 : t ≠ "")
    (ht : t ∉ (["pypi", "npm", "golang", "maven", "cargo", "deb"] : List String)) :
    getCommitFromPurl ora (some t) ns name ver purl
        = (Except.ok ⟨none, none⟩, []) ∧
      getCommitFromPurl ora none ns name ver purl
        = (Except.ok ⟨none, none⟩, []) := by
  refine ⟨?_, rfl⟩
  have hlen : ¬ (t.length = 0) := by
    intro h
    exact ht0 (String.ext (List.length_eq_zero.mp h))
  simp only [List.mem_cons, List.not_mem_nil, or_false, not_or] at ht
  obtain ⟨h1, h2, h3, h4, h5, h6⟩ := ht
  simp only [getCommitFromPurl]
  rw [if_neg hlen, if_neg h1, if_neg h2, if_neg h3, if_neg h4, if_neg h5, if_neg h6]

/-- C3 witness: an unrecognized package type (`conda`) yields the empty record
with no registry query, and so does an absent type. -/
theorem C3_witness :
    getCommitFromPurl oraDown (some "conda") none "x" "1.0" "pkg:conda/x@1.0"
        = (Except.ok ⟨none, none⟩, []) ∧
      getCommitFromPurl oraDown none none "x" "1.0" "pkg:conda/x@1.0"
        = (Except.ok ⟨none, none⟩, []) :=
  C3_amended oraDown none "x" "1.0" "pkg:conda/x@1.0" "conda" (by decide) (by decide)

/-- C8: evaluation of `get_commit_sha` at the claim's scenario input.  The
rewrite chain maps `git+https://github.com/org/left-pad.git` to
`https://github.comgithub.com/org/left-pad.git` (the `git+https://` prefix is
replaced by `https://github.com` with no separator), never to the claimed
`https://github.com/org/left-pad`; consequently the commit lookup fails even
though the repository exists at the claimed normalized url with tag `1.3.0`.
Had the url already been the claimed normalized one, the tag (and the
`v`-prefixed retry) would resolve. -/
theorem C8_bug :
    rewriteCloneUrl "git+https://github.com/org/left-pad.git"
        = "https://github.comgithub.com/org/left-pad.git" ∧
      get_commit_sha leftPadGit
          (some "git+https://github.com/org/left-pad.git") "1.3.0" = none ∧
      get_commit_sha leftPadGit
          (some "https://github.com/org/left-pad") "1.3.0" = some "a1b2c3d4" ∧
      get_commit_sha leftPadGitV
          (some "https://github.com/org/left-pad") "1.3.0" = some "a1b2c3d4" :=
  ⟨by decide, by decide, by decide, by decide⟩

/-- C2 witness: the refinement equation evaluated at a concrete scorer and
finding. -/
theorem C2_witness :
    computeRiskLevel sc0 objNoSev = specSeverity sc0 objNoSev :=
  C2_amended sc0 objNoSev

/-- C10 witness: an empty batch over a concrete store with one row leaves the
row in place and reports "components not updated". -/
theorem C10_witness :
    save_components_data pk0 [rowOld] 1 "license" []
      = ([rowOld], "components not updated") :=
  C10_empty_batch pk0 [rowOld] 1 "license"
